import Mathlib

/-!
# Verification of the ATS CV optimizer scoring and optimization pipeline

Shallow embedding of the scoring/optimization core of the `ats_app` package
(`scanner.py`, `enhanced_scanner.py`, `cv_optimizer.py`, `report.py`).

Documents are modelled as Lean `String`s; all Python text processing is
re-implemented over `List Char` (a Python `str` is a sequence of code points,
as is `String.data`).  Python floats are modelled as exact rationals `ℚ`;
Python `int(x)` (truncation toward zero) is modelled by `pyInt`.  Python
regular-expression searches over the fixed patterns appearing in the source
are re-implemented as explicit scanning functions, with comments justifying
each translation.  `\w` is modelled as ASCII alphanumeric or underscore and
`str.lower` as per-character ASCII lowercasing; every vocabulary word used by
the source is ASCII, so these agree with Python on all inputs the claims are
about.
-/

/-- Python truncation toward zero, the semantics of `int(x)` on a number:
`Int.tdiv` is T-division (round toward zero) and a rational's denominator is
positive. -/
def pyInt (q : ℚ) : ℤ := q.num.tdiv q.den

/-- On nonnegative rationals Python `int` coincides with the floor. -/
theorem pyInt_eq_floor {q : ℚ} (h : 0 ≤ q) : pyInt q = ⌊q⌋ := by
  rw [pyInt, Rat.floor_def]
  exact Int.tdiv_eq_ediv (Rat.num_nonneg.mpr h) (Int.natCast_nonneg _)

/-- The whitespace characters of Python's `str.strip()` / `str.split()` and
of the regex class `\s` (ASCII fragment): space, tab, LF, CR, VT, FF. -/
def isPySpace (c : Char) : Bool :=
  c = ' ' || c = '\t' || c = '\n' || c = '\r' || c = '\x0b' || c = '\x0c'

/-- Regex `\w` (ASCII fragment): letters, digits, underscore. -/
def isWordChar (c : Char) : Bool := c.isAlphanum || c = '_'

/-- Split a character list at every character satisfying `p`, keeping empty
pieces — the semantics of Python `str.split(sep)` for a one-character `sep`
(with `p = (· = sep)`). -/
def splitOnPred (p : Char → Bool) : List Char → List (List Char)
  | [] => [[]]
  | c :: rest =>
    if p c then [] :: splitOnPred p rest
    else
      match splitOnPred p rest with
      | [] => [[c]]
      | l :: ls => (c :: l) :: ls

/-- `'\n'.join`-style inverse of `splitOnPred (· = '\n')`. -/
def joinLines : List (List Char) → List Char
  | [] => []
  | [l] => l
  | l :: ls => l ++ '\n' :: joinLines ls

/-- Python `cv_text.split('\n')`. -/
def splitLines (s : List Char) : List (List Char) := splitOnPred (· = '\n') s

/-- Python `str.split()` with no argument: maximal runs of non-whitespace. -/
def pyWords (s : List Char) : List (List Char) :=
  (splitOnPred isPySpace s).filter (· ≠ [])

/-- Python `str.strip()` (left part). -/
def lstrip (s : List Char) : List Char := s.dropWhile isPySpace

/-- Python `str.strip()`. -/
def pyStrip (s : List Char) : List Char :=
  ((s.dropWhile isPySpace).reverse.dropWhile isPySpace).reverse

/-- Python `str.lower()` (ASCII fragment, see module comment). -/
def lowerL (s : List Char) : List Char := s.map Char.toLower

/-- Python substring containment `pat in s`. -/
def isInfixL (pat : List Char) : List Char → Bool
  | [] => decide (pat = [])
  | c :: rest => pat.isPrefixOf (c :: rest) || isInfixL pat rest

/-- Substring containment on `String`s, `pat in s` in Python. -/
def containsSub (s pat : String) : Bool := isInfixL pat.data s.data

/-- Auxiliary fuel-driven loop for `replaceAllL`; the fuel is the length of
the subject, which suffices because every step consumes at least one
character of the subject. -/
def replaceAllAux (pat rep : List Char) : Nat → List Char → List Char
  | 0, s => s
  | _ + 1, [] => []
  | fuel + 1, c :: rest =>
    if pat.isPrefixOf (c :: rest) then
      rep ++ replaceAllAux pat rep fuel ((c :: rest).drop pat.length)
    else
      c :: replaceAllAux pat rep fuel rest

/-- Python `s.replace(pat, rep)`: replace every (leftmost, non-overlapping)
occurrence.  The source only ever calls it with non-empty patterns; an empty
pattern is mapped to the identity. -/
def replaceAllL (pat rep s : List Char) : List Char :=
  if pat = [] then s else replaceAllAux pat rep s.length s

/-- Does the text contain a decimal digit? -/
def hasDigit (s : List Char) : Bool := s.any Char.isDigit

/-- Number of maximal runs of decimal digits in the text.  This is exactly
`len(re.findall(r'\d+[%$]?|\$\d+', text))`: the regex engine scans left to
right; at the first character of every maximal digit run the first
alternative `\d+[%$]?` matches (consuming the whole run plus an optional
`%`/`$`), at a `$` immediately followed by digits the second alternative
consumes `$` plus the run, and no other position can start a match — so
matches are in bijection with maximal digit runs. -/
def countDigitRuns (s : List Char) : Nat :=
  (List.range s.length).countP fun i =>
    (s.getD i ' ').isDigit && (i = 0 || !(s.getD (i - 1) ' ').isDigit)

/-- A line is a bullet line iff its first non-whitespace character is one of
`•`, `-`, `*`.  This is both `line.strip().startswith(('•', '-', '*'))`
(`cv_optimizer.py`, `enhanced_scanner.py`) and membership of the line in
`re.findall(r'^\s*[•\-\*].*$', text, re.MULTILINE)` (`scanner.py`): in the
regex, `^` anchors at a line start, `\s*` may additionally swallow preceding
whitespace-only lines (which are never themselves bullet lines, and contain
no digits), `[•\-\*]` demands the glyph and `.*$` extends to that line's end
— so the matches of the MULTILINE regex are in bijection with the lines
whose first non-whitespace character is a glyph, and a match contains a
digit iff its bullet line does. -/
def isBulletLine (l : List Char) : Bool :=
  match lstrip l with
  | [] => false
  | c :: _ => c = '•' || c = '-' || c = '*'

/-- The bullet lines of a document. -/
def bulletLines (s : List Char) : List (List Char) :=
  (splitLines s).filter isBulletLine

/-! ## Vocabulary tables (`ATSScanner.__init__`, `scanner.py`) -/

/-- `ats_keywords['power_verbs']`. -/
def powerVerbs : List String :=
  ["achieved", "analyzed", "architected", "automated", "built", "collaborated",
   "created", "delivered", "designed", "developed", "enhanced", "executed",
   "implemented", "improved", "increased", "led", "managed", "optimized",
   "orchestrated", "produced", "reduced", "resolved", "spearheaded", "streamlined"]

/-- `ats_keywords['technical_skills']`. -/
def technicalSkills : List String :=
  ["python", "java", "javascript", "docker", "kubernetes", "aws", "azure",
   "devops", "ci/cd", "jenkins", "git", "linux", "sql", "nosql", "mongodb",
   "postgresql", "redis", "elasticsearch", "kafka", "microservices", "api",
   "rest", "graphql", "terraform", "ansible", "prometheus", "grafana"]

/-- `ats_keywords['soft_skills']`. -/
def softSkills : List String :=
  ["leadership", "communication", "teamwork", "problem-solving", "analytical",
   "critical thinking", "adaptability", "mentoring", "collaboration",
   "project management", "stakeholder management", "cross-functional"]

/-- How many vocabulary entries occur (case-insensitive substring test) in the
already-lowercased text: `sum(1 for v in vocab if v in cv_lower)`. -/
def countVocab (vocab : List String) (cvLower : List Char) : Nat :=
  vocab.countP fun v => isInfixL v.data cvLower

/-! ## Feature extraction (`scanner.py`) -/

/-- Result shape of `ATSScanner._analyze_quantification`. -/
structure QuantificationAnalysis where
  total_bullets : Nat
  quantified_bullets : Nat
  quantification_rate : ℚ
  score : ℚ

/-- `ATSScanner._analyze_quantification`.  A bullet is quantified iff
`re.search(r'\d+[%$]?|\$\d+|\d+\+|\d+x|\d+ years?', bullet, re.I)` succeeds;
every alternative of that pattern requires at least one digit, and whenever
the bullet contains a digit the first alternative `\d+[%$]?` matches at it
(the `[%$]` suffix is optional), so the search succeeds iff the bullet
contains a digit. -/
def analyzeQuantification (cv : String) : QuantificationAnalysis :=
  let bullets := bulletLines cv.data
  let quantified := bullets.filter hasDigit
  let rate : ℚ := (quantified.length : ℚ) / (max bullets.length 1 : ℕ) * 100
  { total_bullets := bullets.length
    quantified_bullets := quantified.length
    quantification_rate := rate
    score := rate }

/-- Result shape of `ATSScanner._analyze_keywords`. -/
structure KeywordsAnalysis where
  power_verb_count : Nat
  power_verbs_score : ℚ
  technical_count : Nat
  technical_score : ℚ
  soft_count : Nat
  soft_score : ℚ
  job_match_score : ℚ
  job_match_count : Nat

/-- Maximal runs of `\w` characters in a text. -/
def maximalWordRuns (s : List Char) : List (List Char) :=
  (splitOnPred (fun c => !isWordChar c) s).filter (· ≠ [])

/-- `re.findall(r'\b[a-z]{3,}\b', jd_lower)`: both `\b` anchors force every
match to be a full maximal `\w`-run, and `[a-z]{3,}` forces the run to
consist of at least three lowercase letters only. -/
def jdJobTerms (jd : String) : List (List Char) :=
  (maximalWordRuns (lowerL jd.data)).filter fun r =>
    decide (3 ≤ r.length) && r.all fun c => c.isLower && c.isAlpha

/-- `ATSScanner._extract_jd_keywords` before the `list(set(...))`
deduplication: `all_keywords + technical_terms` where `technical_terms` keeps
the job terms belonging to the short hardcoded allow-list. -/
def jdKeywordList (jd : String) : List String :=
  technicalSkills ++ softSkills ++
    ((jdJobTerms jd).filter fun r =>
        ["python", "java", "docker", "aws", "kubernetes"].any fun t => t.data = r).map
      fun r => String.mk r

/-- A possible value of `list(set(all_keywords + technical_terms))`: CPython
enumerates the set in an order that depends on string hashing (and hence may
differ between runs), but always without duplicates and with exactly the
members of the set. -/
def validJdEnum (jd : String) (e : List String) : Prop :=
  e.Nodup ∧ ∀ k, k ∈ e ↔ k ∈ jdKeywordList jd

/-- `ATSScanner._analyze_keywords`; `jdEnum` stands for the enumeration of
`list(set(...))` produced by `_extract_jd_keywords` in the given run (only
consulted when the job description is non-empty, mirroring the
`if job_description:` guard). -/
def analyzeKeywords (cv jd : String) (jdEnum : List String) : KeywordsAnalysis :=
  let cvLower := lowerL cv.data
  let pv := countVocab powerVerbs cvLower
  let tech := countVocab technicalSkills cvLower
  let soft := countVocab softSkills cvLower
  let matched := jdEnum.countP fun k => isInfixL k.data cvLower
  { power_verb_count := pv
    power_verbs_score := (min (pv * 10) 100 : ℕ)
    technical_count := tech
    technical_score := (min (tech * 5) 100 : ℕ)
    soft_count := soft
    soft_score := (min (soft * 10) 100 : ℕ)
    job_match_score :=
      if jd ≠ "" then (matched : ℚ) / (max jdEnum.length 1 : ℕ) * 100 else 0
    job_match_count := if jd ≠ "" then matched else 0 }

/-- Result shape of `ATSScanner._analyze_formatting`. -/
structure FormattingAnalysis where
  has_contact : Bool
  has_summary : Bool
  has_experience : Bool
  has_education : Bool
  has_skills : Bool
  section_score : ℚ
  bullet_points : Nat
  bullet_score : ℚ
  overall_formatting_score : ℚ

/-- `ATSScanner._analyze_formatting`.  Each section regex is an alternation
of literal words searched case-insensitively, i.e. a substring test of each
literal against the lowercased text. -/
def analyzeFormatting (cv : String) : FormattingAnalysis :=
  let low := lowerL cv.data
  let has : String → Bool := fun w => isInfixL w.data low
  let contact := has "email" || has "phone" || has "linkedin"
  let summary := has "summary" || has "profile" || has "objective"
  let experience := has "experience" || has "work" || has "employment"
  let education := has "education"
  let skills := has "skills"
  let found : Nat :=
    contact.toNat + summary.toNat + experience.toNat + education.toNat + skills.toNat
  let sectionScore : ℚ := (found : ℚ) / 5 * 100
  let bullets := (splitLines cv.data).countP isBulletLine
  let bulletScore : ℚ := (min (bullets * 5) 100 : ℕ)
  { has_contact := contact
    has_summary := summary
    has_experience := experience
    has_education := education
    has_skills := skills
    section_score := sectionScore
    bullet_points := bullets
    bullet_score := bulletScore
    overall_formatting_score := (sectionScore + bulletScore) / 2 }

/-- Result shape of `ATSScanner._analyze_content_quality`. -/
structure ContentQualityAnalysis where
  word_count : Nat
  sentence_count : Nat
  avg_words_per_sentence : ℚ
  bullet_points : Nat
  quantified_achievements : Nat
  quality_score : ℚ

/-- `ATSScanner._analyze_content_quality`.  `re.split(r'[.!?]+', text)`
differs from splitting at every single `.!?` character only by empty pieces
between consecutive delimiters, which the `if s.strip()` filter discards in
both readings, so the sentence count is the number of pieces with
non-whitespace content.  `bullet_points` counts the matches of
`^\s*[•\-\*]` (MULTILINE), which are in bijection with the bullet lines (see
`isBulletLine`), and `quantified_achievements` counts the matches of
`\d+[%$]?|\$\d+`, which are in bijection with the maximal digit runs (see
`countDigitRuns`). -/
def analyzeContentQuality (cv : String) : ContentQualityAnalysis :=
  let wordCount := (pyWords cv.data).length
  let sentenceCount :=
    (splitOnPred (fun c => c = '.' || c = '!' || c = '?') cv.data).countP
      fun s => pyStrip s ≠ []
  let bullets := (splitLines cv.data).countP isBulletLine
  let qa := countDigitRuns cv.data
  { word_count := wordCount
    sentence_count := sentenceCount
    avg_words_per_sentence := (wordCount : ℚ) / (max sentenceCount 1 : ℕ)
    bullet_points := bullets
    quantified_achievements := qa
    quality_score := (min (bullets * 5 + qa * 10) 100 : ℕ) }

/-- Characters of the class `[\w.-]` used by the e-mail regex. -/
def isEmailChar (c : Char) : Bool := isWordChar c || c = '.' || c = '-'

/-- `re.search(r'[\w.-]+@[\w.-]+\.\w+', text)`: a match exists iff there are
positions `i < j` with an `[\w.-]` character immediately before the `@` at
`i` (one suffices for the first `+`), only `[\w.-]` characters strictly
between `i` and `j` (at least one, hence `i + 2 ≤ j`), a literal `.` at `j`
and a `\w` character right after it. -/
def emailFoundL (s : List Char) : Bool :=
  let n := s.length
  (List.range n).any fun i =>
    (List.range n).any fun j =>
      decide (1 ≤ i) && (s.getD i ' ' = '@') && isEmailChar (s.getD (i - 1) ' ') &&
      decide (i + 2 ≤ j) && (s.getD j ' ' = '.') &&
      decide (j + 1 < n) && isWordChar (s.getD (j + 1) ' ') &&
      ((List.range (j - i - 1)).all fun m => isEmailChar (s.getD (i + 1 + m) ' '))

/-- Consume exactly `k` digits. -/
def eatDigits : Nat → List Char → Option (List Char)
  | 0, s => some s
  | _ + 1, [] => none
  | k + 1, c :: r => if c.isDigit then eatDigits k r else none

/-- Consume one character satisfying `p` if present (`X?` in a regex whose
continuation can never also start with a character satisfying `p`, so greedy
consumption without backtracking is exact). -/
def eatOpt (p : Char → Bool) : List Char → List Char
  | [] => []
  | c :: r => if p c then r else c :: r

/-- Match `\(?\d{3}\)?[-.]?\d{3}[-.]?\d{4}` at the head of `s`.  Each
optional element (`(`, `)`, `[-.]`) is followed by a digit requirement and
none of those characters is a digit, so the greedy choice is the only one
that can succeed and backtracking never changes the outcome. -/
def phoneAt (s : List Char) : Bool :=
  let s1 := eatOpt (· = '(') s
  match eatDigits 3 s1 with
  | none => false
  | some s2 =>
    let s3 := eatOpt (· = ')') s2
    let s4 := eatOpt (fun c => c = '-' || c = '.') s3
    match eatDigits 3 s4 with
    | none => false
    | some s5 =>
      let s6 := eatOpt (fun c => c = '-' || c = '.') s5
      (eatDigits 4 s6).isSome

/-- `re.search(r'\(?\d{3}\)?[-.]?\d{3}[-.]?\d{4}', text)`. -/
def phoneFoundL (s : List Char) : Bool := s.tails.any phoneAt

/-- Characters allowed by the class complement `[^\w\s\-.,!?()%$]`. -/
def isAllowedSpecial (c : Char) : Bool :=
  isWordChar c || isPySpace c || c = '-' || c = '.' || c = ',' || c = '!' ||
    c = '?' || c = '(' || c = ')' || c = '%' || c = '$'

/-- Result shape of `ATSScanner._analyze_ats_compatibility`. -/
structure AtsCompatibilityAnalysis where
  score : ℚ
  has_tabs : Bool
  special_char_count : Nat
  email_found : Bool
  phone_found : Bool

/-- `ATSScanner._analyze_ats_compatibility`. -/
def analyzeAtsCompatibility (cv : String) : AtsCompatibilityAnalysis :=
  let hasTabs := cv.data.any (· = '\t')
  let special := cv.data.countP fun c => !isAllowedSpecial c
  let email := emailFoundL cv.data
  let phone := phoneFoundL cv.data
  let score : ℚ :=
    (100 : ℚ) - (if hasTabs then 10 else 0) - (if 50 < special then 15 else 0) -
      (if email then 0 else 20) - (if phone then 0 else 10)
  { score := max score 0
    has_tabs := hasTabs
    special_char_count := special
    email_found := email
    phone_found := phone }

/-- `ATSScanner._calculate_overall_score`: the weighted blend of the five
section scores, truncated to an integer by `int(...)`. -/
def calcOverallScore (k : KeywordsAnalysis) (f : FormattingAnalysis)
    (c : ContentQualityAnalysis) (a : AtsCompatibilityAnalysis)
    (q : QuantificationAnalysis) : ℤ :=
  let keywordScore : ℚ :=
    k.power_verbs_score * 0.3 + k.technical_score * 0.4 + k.soft_score * 0.2 +
      k.job_match_score * 0.1
  pyInt (keywordScore * 0.3 + f.overall_formatting_score * 0.25 +
    c.quality_score * 0.2 + a.score * 0.15 + q.score * 0.1)

/-- One run of the base scan's scoring (`ATSScanner.scan_cv` followed by
`_calculate_overall_score`), with the set-enumeration order of
`_extract_jd_keywords` made explicit as `jdEnum`. -/
def overallScoreRun (cv jd : String) (jdEnum : List String) : ℤ :=
  calcOverallScore (analyzeKeywords cv jd jdEnum) (analyzeFormatting cv)
    (analyzeContentQuality cv) (analyzeAtsCompatibility cv)
    (analyzeQuantification cv)

/-! ## Enhanced analysis (`enhanced_scanner.py`) -/

/-- `enhanced_keywords['tier1_verbs']`. -/
def tier1Verbs : List String :=
  ["architected", "orchestrated", "spearheaded", "pioneered", "transformed",
   "revolutionized", "optimized", "streamlined", "automated", "scaled"]

/-- `enhanced_keywords['tier2_verbs']`. -/
def tier2Verbs : List String :=
  ["developed", "implemented", "created", "built", "designed", "managed",
   "led", "delivered", "executed", "coordinated"]

/-- `enhanced_keywords['tier3_verbs']`. -/
def tier3Verbs : List String :=
  ["assisted", "helped", "participated", "supported", "contributed",
   "worked", "involved", "collaborated", "engaged", "handled"]

/-- `enhanced_keywords['leadership_indicators']`. -/
def leadershipIndicators : List String :=
  ["led team", "managed", "supervised", "mentored", "coached",
   "directed", "oversaw", "guided", "trained", "developed team"]

/-- `unprofessional_terms` in `_analyze_presentation`. -/
def unprofessionalTerms : List String := ["awesome", "cool", "stuff", "things", "guys"]

/-- Strip a literal pattern from the head of the text. -/
def dropLit (pat s : List Char) : Option (List Char) :=
  if pat.isPrefixOf s then some (s.drop pat.length) else none

/-- Left-to-right, non-overlapping collection of the matches of a
deterministic single-position matcher `m` (returning a payload and the rest
of the text after the match) — the semantics of `re.findall`: try to match
at the current position; on success continue after the match, on failure
advance one character.  The fuel is the text length; every step consumes at
least one character (all matchers below consume ≥ 1 on success). -/
def collectMatches {α : Type} (m : List Char → Option (α × List Char)) :
    Nat → List Char → List α
  | 0, _ => []
  | _ + 1, [] => []
  | fuel + 1, c :: rest =>
    match m (c :: rest) with
    | some (a, rem) => a :: collectMatches m fuel rem
    | none => collectMatches m fuel rest

/-- One attempted match of `team of (\d+)|led (\d+)` at the current
position; the two alternatives start with distinct literals, so at most one
can apply. -/
def matchTeamLedAt (s : List Char) : Option (Unit × List Char) :=
  match dropLit "team of ".data s with
  | some r =>
    let run := r.takeWhile Char.isDigit
    if run.isEmpty then none else some ((), r.drop run.length)
  | none =>
    match dropLit "led ".data s with
    | some r =>
      let run := r.takeWhile Char.isDigit
      if run.isEmpty then none else some ((), r.drop run.length)
    | none => none

/-- One attempted match of `\$[\d,]+|budget` at the current position. -/
def matchBudgetAt (s : List Char) : Option (Unit × List Char) :=
  match s with
  | '$' :: r =>
    let run := r.takeWhile fun c => c.isDigit || c = ','
    if run.isEmpty then none else some ((), r.drop run.length)
  | _ => (dropLit "budget".data s).map fun r => ((), r)

/-- Result shape of `_analyze_leadership_indicators`. -/
structure LeadershipAnalysis where
  leadership_term_count : Nat
  team_size_mentions : Nat
  budget_mentions : Nat
  leadership_score : ℚ

/-- `EnhancedATSScanner._analyze_leadership_indicators`. -/
def analyzeLeadership (cv : String) : LeadershipAnalysis :=
  let low := lowerL cv.data
  let terms := countVocab leadershipIndicators low
  let team := (collectMatches matchTeamLedAt low.length low).length
  let budget := (collectMatches matchBudgetAt low.length low).length
  { leadership_term_count := terms
    team_size_mentions := team
    budget_mentions := budget
    leadership_score := (min (terms * 15 + team * 20 + budget * 10) 100 : ℕ) }

/-- Lazy search `.*?(\d+%|\d+)` starting right after a matched verb: `.`
does not cross a newline, laziness selects the first digit position, the
digit run is taken greedily and the first alternative `\d+%` additionally
consumes a directly following `%`. -/
def seekNumGroup : List Char → Option (List Char × List Char)
  | [] => none
  | c :: rest =>
    if c.isDigit then
      let run := (c :: rest).takeWhile Char.isDigit
      match (c :: rest).drop run.length with
      | '%' :: r2 => some (run ++ ['%'], r2)
      | after => some (run, after)
    else if c = '\n' then none
    else seekNumGroup rest

/-- Lazy search `.*?\$([\d,]+)`: the first `$` directly followed by at least
one digit-or-comma matches; a bare `$` is consumed by `.*?` and the scan
continues.  The captured group excludes the `$` itself. -/
def seekDollarGroup : List Char → Option (List Char × List Char)
  | [] => none
  | '$' :: rest =>
    let run := rest.takeWhile fun c => c.isDigit || c = ','
    if run.isEmpty then seekDollarGroup rest else some (run, rest.drop run.length)
  | c :: rest => if c = '\n' then none else seekDollarGroup rest

/-- One attempted match of `(v₁|v₂|…).*?(<number group>)` at the current
position (the verb alternatives of each impact pattern are pairwise
prefix-incompatible, so `find?` returns the only verb that can match). -/
def matchImpactAt (verbs : List String)
    (seek : List Char → Option (List Char × List Char)) (s : List Char) :
    Option ((List Char × List Char) × List Char) :=
  match verbs.find? fun v => v.data.isPrefixOf s with
  | none => none
  | some v =>
    match seek (s.drop v.data.length) with
    | some (g2, rem) => some ((v.data, g2), rem)
    | none => none

/-- Result shape of `_analyze_impact_statements`. -/
structure ImpactAnalysis where
  total_impact_statements : Nat
  high_impact_statements : Nat
  impact_score : ℚ

/-- `EnhancedATSScanner._analyze_impact_statements`.  The four IGNORECASE
patterns are scanned over the lowercased text (the verb literals and digit
classes are case-insensitive, and the statements are lowercased again by the
high-impact check, so this is exact); each finding is
`' '.join(match)`, i.e. the verb group, a space and the number group. -/
def impactStatements (cv : String) : List (List Char) :=
  let low := lowerL cv.data
  let col := fun (verbs : List String) seek =>
    collectMatches (matchImpactAt verbs seek) low.length low
  (col ["reduced", "decreased", "cut"] seekNumGroup ++
   col ["increased", "improved", "grew", "boosted"] seekNumGroup ++
   col ["saved", "generated"] seekDollarGroup ++
   col ["achieved", "delivered"] seekNumGroup).map fun m => m.1 ++ ' ' :: m.2

/-- `EnhancedATSScanner._analyze_impact_statements` (scores). -/
def analyzeImpactStatements (cv : String) : ImpactAnalysis :=
  let stmts := impactStatements cv
  let high := stmts.countP fun st =>
    isInfixL "million".data st || isInfixL "$".data st || isInfixL "%".data st
  { total_impact_statements := stmts.length
    high_impact_statements := high
    impact_score := (min (stmts.length * 20 + high * 10) 100 : ℕ) }

/-- Result shape of `_analyze_verb_hierarchy`. -/
structure VerbHierarchyAnalysis where
  tier1_count : Nat
  tier2_count : Nat
  tier3_count : Nat
  total_verbs : Nat
  tier_distribution_score : ℚ

/-- `EnhancedATSScanner._analyze_verb_hierarchy`. -/
def analyzeVerbHierarchy (cv : String) : VerbHierarchyAnalysis :=
  let low := lowerL cv.data
  let t1 := countVocab tier1Verbs low
  let t2 := countVocab tier2Verbs low
  let t3 := countVocab tier3Verbs low
  let total := t1 + t2 + t3
  { tier1_count := t1
    tier2_count := t2
    tier3_count := t3
    total_verbs := total
    tier_distribution_score :=
      if 0 < total then ((t1 * 3 + t2 * 2 + t3 : ℕ) : ℚ) / ((total * 3 : ℕ) : ℚ) * 100
      else 0 }

/-- Result shape of `_analyze_role_alignment`.  For an empty target role the
source returns `{'score': 50, 'message': ...}`; otherwise the score is
stored under the key `alignment_score` — both are modelled by the single
field `score`. -/
structure RoleAlignmentAnalysis where
  score : ℚ
  relevant_count : Nat
  matched_count : Nat

/-- The `role_keywords` table of `_analyze_role_alignment`, in insertion
order. -/
def roleKeywords : List (String × List String) :=
  [("devops", ["docker", "kubernetes", "jenkins", "terraform", "ansible", "aws", "ci/cd"]),
   ("developer", ["python", "java", "javascript", "react", "node.js", "api", "database"]),
   ("data", ["python", "sql", "machine learning", "pandas", "numpy", "visualization"]),
   ("manager", ["leadership", "team", "budget", "strategy", "stakeholder", "project"]),
   ("architect", ["design", "architecture", "system", "scalability", "microservices"])]

/-- `EnhancedATSScanner._analyze_role_alignment`. -/
def analyzeRoleAlignment (cv role : String) : RoleAlignmentAnalysis :=
  if role = "" then { score := 50, relevant_count := 0, matched_count := 0 }
  else
    let targetLower := lowerL role.data
    let cvLower := lowerL cv.data
    let fromRoles :=
      (roleKeywords.filter fun p => isInfixL p.1.data targetLower).flatMap (·.2)
    let relevant := if fromRoles.isEmpty then technicalSkills ++ softSkills else fromRoles
    let matched := relevant.countP fun k => isInfixL k.data cvLower
    { score := (matched : ℚ) / (max relevant.length 1 : ℕ) * 100
      relevant_count := relevant.length
      matched_count := matched }

/-- Result shape of `_analyze_content_depth`. -/
structure ContentDepthAnalysis where
  total_bullets : Nat
  detailed_bullets : Nat
  weak_bullets : Nat
  avg_bullet_length : ℚ
  depth_score : ℚ

/-- `EnhancedATSScanner._analyze_content_depth` (`weak` is the `elif
word_count <= 4` branch; `word_count <= 4` already excludes the `>= 12`
branch). -/
def analyzeContentDepth (cv : String) : ContentDepthAnalysis :=
  let bullets := bulletLines cv.data
  let wc := fun (b : List Char) => (pyWords b).length
  let detailed := bullets.countP fun b => decide (12 ≤ wc b)
  let weak := bullets.countP fun b => decide (wc b ≤ 4)
  let avg : ℚ := ((bullets.map wc).sum : ℚ) / (max bullets.length 1 : ℕ)
  let depth : ℚ := min ((detailed : ℚ) * 15 - (weak : ℚ) * 5 + avg * 2) 100
  { total_bullets := bullets.length
    detailed_bullets := detailed
    weak_bullets := weak
    avg_bullet_length := avg
    depth_score := max depth 0 }

/-- One attempted match of `\d{4}|\d{1,2}/\d{4}|\w+ \d{4}` at the current
position, alternatives tried left to right; `\d{1,2}` greedily prefers two
digits, and in `\w+ \d{4}` only the maximal `\w`-run can be followed by the
literal space, so greedy matching without backtracking is exact. -/
def matchDateAt (s : List Char) : Option (List Char × List Char) :=
  let g := fun i => s.getD i ' '
  let digit := fun i => (g i).isDigit
  if digit 0 && digit 1 && digit 2 && digit 3 then
    some (s.take 4, s.drop 4)
  else if digit 0 && digit 1 && (g 2 = '/') && digit 3 && digit 4 && digit 5 && digit 6 then
    some (s.take 7, s.drop 7)
  else if digit 0 && (g 1 = '/') && digit 2 && digit 3 && digit 4 && digit 5 then
    some (s.take 6, s.drop 6)
  else
    let run := s.takeWhile isWordChar
    match s.drop run.length with
    | ' ' :: r2 =>
      if !run.isEmpty && (r2.getD 0 ' ').isDigit && (r2.getD 1 ' ').isDigit &&
          (r2.getD 2 ' ').isDigit && (r2.getD 3 ' ').isDigit then
        some (run ++ ' ' :: r2.take 4, r2.drop 4)
      else none
    | _ => none

/-- The bullet glyph of a line, when the line is a bullet line: the capture
of `^\s*([•\-\*])` (MULTILINE), one match per bullet line (see
`isBulletLine`). -/
def bulletGlyph (l : List Char) : Option Char :=
  match lstrip l with
  | c :: _ => if c = '•' || c = '-' || c = '*' then some c else none
  | [] => none

/-- Result shape of `_analyze_presentation`. -/
structure PresentationAnalysis where
  date_format_count : Nat
  unprofessional_count : Nat
  bullet_format_count : Nat
  presentation_score : ℚ

/-- `EnhancedATSScanner._analyze_presentation`: `date_formats` and
`bullet_formats` are the numbers of distinct matched strings
(`len(set(re.findall(...)))`). -/
def analyzePresentation (cv : String) : PresentationAnalysis :=
  let dates := (collectMatches matchDateAt cv.data.length cv.data).dedup.length
  let unprof := countVocab unprofessionalTerms (lowerL cv.data)
  let glyphs := ((splitLines cv.data).filterMap bulletGlyph).dedup.length
  let score : ℚ :=
    100 - (if 2 < dates then 15 else 0) - (unprof : ℚ) * 10 -
      (if 1 < glyphs then 10 else 0)
  { date_format_count := dates
    unprofessional_count := unprof
    bullet_format_count := glyphs
    presentation_score := max score 0 }

/-! ## Industry-standard compliance checks (`enhanced_scanner.py`) -/

/-- `_check_action_verb_compliance` (score and findings). -/
def checkActionVerbCompliance (cv : String) : ℚ × List String :=
  let t1 := countVocab tier1Verbs (lowerL cv.data)
  if 5 ≤ t1 then (90, ["Excellent use of Tier 1 action verbs"])
  else if 3 ≤ t1 then (75, ["Good use of action verbs, add more Tier 1 verbs"])
  else (50, ["Need more powerful Tier 1 action verbs"])

/-- `_check_quantification_compliance`.  The quantified-bullet test
`re.search(r'\d+[%$]?|\$\d+', bullet)` succeeds iff the bullet contains a
digit (see `analyzeQuantification`).  The finding of the last branch
interpolates the rate with `%.1f` formatting; no claim depends on its text,
so it is modelled by a fixed marker string. -/
def checkQuantificationCompliance (cv : String) : ℚ × List String :=
  let bullets := bulletLines cv.data
  if bullets.isEmpty then (0, ["No bullet points found"])
  else
    let quantified := bullets.countP hasDigit
    let rate : ℚ := (quantified : ℚ) / (bullets.length : ℚ) * 100
    if 80 ≤ rate then (95, ["Excellent quantification rate"])
    else if 60 ≤ rate then (80, ["Good quantification, aim for 80%+ of bullets"])
    else (((pyInt rate : ℤ) : ℚ), ["Only ...% of bullets quantified"])

/-- `_check_ats_formatting_compliance`. -/
def checkAtsFormattingCompliance (cv : String) : ℚ × List String :=
  let hasTabs := cv.data.any (· = '\t')
  let email := emailFoundL cv.data
  let score : ℚ := 100 - (if hasTabs then 20 else 0) - (if email then 0 else 30)
  let issues :=
    (if hasTabs then ["Remove tab characters"] else []) ++
      (if email then [] else ["Add proper email format"])
  (max score 0, if issues.isEmpty then ["ATS formatting compliant"] else issues)

/-- `_check_keyword_compliance`. -/
def checkKeywordCompliance (cv : String) : ℚ × List String :=
  let tech := countVocab technicalSkills (lowerL cv.data)
  if 12 ≤ tech then (90, ["Strong keyword presence"])
  else if 8 ≤ tech then (75, ["Good keyword coverage"])
  else (50, ["Need more relevant technical keywords"])

/-- `_check_presentation_compliance`. -/
def checkPresentationCompliance (cv : String) : ℚ × List String :=
  ((analyzePresentation cv).presentation_score, [])

/-- `_check_impact_compliance`. -/
def checkImpactCompliance (cv : String) : ℚ × List String :=
  ((analyzeImpactStatements cv).impact_score, [])

/-- `_check_alignment_compliance`: a generic check, independent of any
target role. -/
def checkAlignmentCompliance (_cv : String) : ℚ × List String :=
  (70, ["Role alignment requires specific target role"])

/-- Modelled from the spec: `industry_standards.py` (class
`IndustryStandards`, providing `get_all_standards()`) is not among the
sources — only its callers are.  Spec §4.2 fixes the catalog as exactly
seven named standards; `_analyze_industry_standards` dispatches on these
names with an `if/elif` chain. -/
def industryStandardNames : List String :=
  ["action_verb_hierarchy", "quantification_standard", "ats_formatting",
   "keyword_optimization", "professional_presentation", "impact_demonstration",
   "role_alignment"]

/-- The per-standard compliance score assigned by
`_analyze_industry_standards` (a name outside the `if/elif` chain would keep
the initial `compliance_score = 0`). -/
def standardScore (cv : String) (name : String) : ℚ :=
  if name = "action_verb_hierarchy" then (checkActionVerbCompliance cv).1
  else if name = "quantification_standard" then (checkQuantificationCompliance cv).1
  else if name = "ats_formatting" then (checkAtsFormattingCompliance cv).1
  else if name = "keyword_optimization" then (checkKeywordCompliance cv).1
  else if name = "professional_presentation" then (checkPresentationCompliance cv).1
  else if name = "impact_demonstration" then (checkImpactCompliance cv).1
  else if name = "role_alignment" then (checkAlignmentCompliance cv).1
  else 0

/-- `overall_compliance_score` of `_analyze_industry_standards`: unweighted
mean of the per-standard scores. -/
def overallComplianceScore (cv : String) : ℚ :=
  (industryStandardNames.map (standardScore cv)).sum /
    (industryStandardNames.length : ℚ)

/-- `EnhancedATSScanner._calculate_enhanced_score` as a function of the ten
sub-scores it reads from `base_sections` and `enhanced_analysis`. -/
def calcEnhancedScoreComponents
    (pv ts fmt ats comp tier lead imp depth pres : ℚ) : ℤ :=
  pyInt ((pv * 0.15 + ts * 0.20 + fmt * 0.15 + ats * 0.10) * 0.6 +
    (comp * 0.15 + tier * 0.08 + lead * 0.05 + imp * 0.07 + depth * 0.03 +
      pres * 0.02) * 0.4)

/-- One run of `EnhancedATSScanner.enhanced_scan`'s `enhanced_score`
computation.  The target role only feeds the `role_alignment` entry of the
enhanced analysis, which `_calculate_enhanced_score` does not read, so it
does not appear on the right-hand side; `jdEnum` is the set-enumeration
order used by the base scan (whose `job_match` component is likewise not
read by `_calculate_enhanced_score`). -/
def enhancedScoreRun (cv jd _role : String) (jdEnum : List String) : ℤ :=
  let k := analyzeKeywords cv jd jdEnum
  calcEnhancedScoreComponents k.power_verbs_score k.technical_score
    (analyzeFormatting cv).overall_formatting_score
    (analyzeAtsCompatibility cv).score (overallComplianceScore cv)
    (analyzeVerbHierarchy cv).tier_distribution_score
    (analyzeLeadership cv).leadership_score
    (analyzeImpactStatements cv).impact_score
    (analyzeContentDepth cv).depth_score
    (analyzePresentation cv).presentation_score

/-! ## Optimization engine (`cv_optimizer.py`) -/

/-- The `power_verbs` list local to `CVOptimizer._analyze_current_cv`. -/
def optimizerPowerVerbs : List String :=
  ["architected", "orchestrated", "spearheaded", "optimized", "transformed"]

/-- The characters of
`any(char in bullet for char in ['%', '$', '0', …, '9'])`. -/
def quantChars : List Char :=
  ['%', '$', '0', '1', '2', '3', '4', '5', '6', '7', '8', '9']

/-- Result shape of `CVOptimizer._analyze_current_cv` (the
`sections_detected` entry is modelled separately by `detectSections`). -/
structure CurrentCvAnalysis where
  total_bullets : Nat
  quantified_bullets : Nat
  quantification_rate : ℚ
  power_verb_count : Nat
  word_count : Nat

/-- `CVOptimizer._analyze_current_cv`. -/
def analyzeCurrentCv (cv : String) : CurrentCvAnalysis :=
  let bullets := bulletLines cv.data
  let quantified := bullets.countP fun b => quantChars.any fun c => b.contains c
  let pv := optimizerPowerVerbs.countP fun v => isInfixL v.data (lowerL cv.data)
  { total_bullets := bullets.length
    quantified_bullets := quantified
    quantification_rate := (quantified : ℚ) / (max bullets.length 1 : ℕ) * 100
    power_verb_count := pv
    word_count := (pyWords cv.data).length }

/-- The `section_patterns` table of `CVOptimizer._detect_sections`. -/
def sectionPatterns : List (String × String) :=
  [("summary", "(summary|profile|objective)"),
   ("experience", "(experience|work|employment|career)"),
   ("education", "education"),
   ("skills", "skills"),
   ("certifications", "(certifications|certificates)"),
   ("projects", "projects")]

/-- `CVOptimizer._detect_sections`.  The source tests `pattern in line`,
which is *Python string containment of the pattern text itself* (including
its parentheses and pipes), not a regex match — embedded as written. -/
def detectSections (cv : String) : List String :=
  (sectionPatterns.filter fun p =>
      (splitLines (lowerL cv.data)).any fun l => isInfixL p.2.data l).map (·.1)

/-- The `improvements` dict of `_validate_improvements`. -/
structure ValidationImprovements where
  quantification_improvement : ℚ
  power_verb_improvement : ℤ
  length_change : ℤ
  bullet_count_change : ℤ

/-- Result shape of `_validate_improvements`. -/
structure ValidationResult where
  improvements : ValidationImprovements
  improvement_score : Nat
  validation_passed : Bool

/-- `CVOptimizer._validate_improvements`. -/
def validateImprovements (original optimized : String) : ValidationResult :=
  let oa := analyzeCurrentCv original
  let pa := analyzeCurrentCv optimized
  let imp : ValidationImprovements :=
    { quantification_improvement := pa.quantification_rate - oa.quantification_rate
      power_verb_improvement := (pa.power_verb_count : ℤ) - (oa.power_verb_count : ℤ)
      length_change := (pa.word_count : ℤ) - (oa.word_count : ℤ)
      bullet_count_change := (pa.total_bullets : ℤ) - (oa.total_bullets : ℤ) }
  let score : Nat :=
    (if 0 < imp.quantification_improvement then 30 else 0) +
    (if 0 < imp.power_verb_improvement then 25 else 0) +
    (if -50 ≤ imp.length_change ∧ imp.length_change ≤ 200 then 20 else 0) +
    (if 0 ≤ imp.bullet_count_change then 25 else 0)
  { improvements := imp
    improvement_score := score
    validation_passed := decide (50 ≤ score) }

/-- An entry of an `improvements` list. -/
structure Improvement where
  sectionName : String
  original : String
  improved : String
  reason : String
  impact_score : Nat
deriving DecidableEq

/-- The result dict of `_generate_optimizations` and friends.  A Python dict
without the `'fallback_used'` key is modelled by `fallback_used = false`
(the key is only ever read as a truthy flag). -/
structure OptResult where
  optimized_content : String
  improvements : List Improvement
  summary : String
  fallback_used : Bool
deriving DecidableEq

/-- The `verb_replacements` dict of `_fallback_optimization`, in insertion
order. -/
def verbReplacements : List (String × String) :=
  [("worked on", "developed"), ("helped with", "contributed to"),
   ("was responsible for", "managed"), ("assisted", "supported")]

/-- One iteration of the replacement loop of `_fallback_optimization`:
`optimized_line` is recomputed from `line.lower()` at every applicable
replacement (not cumulatively), and an improvement entry is appended
whenever the freshly computed line differs from the original line. -/
def fallbackStep (line : List Char) (acc : List Char × List Improvement)
    (p : String × String) : List Char × List Improvement :=
  if isInfixL p.1.data (lowerL line) then
    let newLine := replaceAllL p.1.data p.2.data (lowerL line)
    (newLine,
      if newLine ≠ line then
        acc.2 ++ [{ sectionName := "experience"
                    original := String.mk line
                    improved := String.mk newLine
                    reason := "Replaced weak verb \"" ++ p.1 ++
                      "\" with stronger \"" ++ p.2 ++ "\""
                    impact_score := 6 }]
      else acc.2)
  else acc

/-- The inner replacement loop of `_fallback_optimization` for one line. -/
def fallbackLine (line : List Char) : List Char × List Improvement :=
  verbReplacements.foldl (fallbackStep line) (line, [])

/-- `CVOptimizer._fallback_optimization` (rule-based fallback). -/
def fallbackOptimization (cv : String) : OptResult :=
  let processed := (splitLines cv.data).map fallbackLine
  let improvements := (processed.map (·.2)).flatten
  { optimized_content := String.mk (joinLines (processed.map (·.1)))
    improvements := improvements
    summary := "Applied " ++ toString improvements.length ++ " rule-based improvements"
    fallback_used := true }

/-- `CVOptimizer._create_fallback_response` (used when `json.loads` raises
`JSONDecodeError`). -/
def createFallbackResponse (originalCv : String) : OptResult :=
  { optimized_content := originalCv
    improvements := []
    summary := "Optimization failed - original content preserved"
    fallback_used := true }

/-- The decoded value of a successful `json.loads` on the extracted
substring, restricted to the two keys the source inspects plus the summary
it forwards; a missing key is `none`. -/
structure DecodedJson where
  optimized_content : Option String
  improvements : Option (List Improvement)
  summary : Option String

/-- Python `s.find(c)`. -/
def pyFind (c : Char) (s : List Char) : Option Nat := s.findIdx? (· = c)

/-- Python `s.rfind(c)`. -/
def pyRfind (c : Char) (s : List Char) : Option Nat :=
  (s.reverse.findIdx? (· = c)).map fun i => s.length - 1 - i

/-- The fallthrough "structured response" of
`_parse_optimization_response`: keep the raw response if it is long enough
(`len(response) > len(original_cv) * 0.8`), else the original text, with one
synthetic improvement entry; no `fallback_used` key. -/
def structuredResponse (response originalCv : String) : OptResult :=
  { optimized_content :=
      if (originalCv.length : ℚ) * 0.8 < (response.length : ℚ) then response
      else originalCv
    improvements := [{ sectionName := "general", original := "Various sections",
                       improved := "Enhanced content",
                       reason := "LLM optimization applied", impact_score := 7 }]
    summary := "CV optimized using AI analysis"
    fallback_used := false }

/-- `CVOptimizer._parse_optimization_response`.  `decode` models the
external `json.loads` plus the reading of the three fields: `none` models a
raised `json.JSONDecodeError` (the only exception this function can raise,
and the only one it catches).  The `if start_idx != -1 and end_idx != 0`
guard holds exactly when both braces are found (`end_idx` is `rfind + 1`);
a `'}'` before the `'{'` yields an empty or truncated slice exactly as
Python slicing does. -/
def parseOptimizationResponse (decode : String → Option DecodedJson)
    (response originalCv : String) : OptResult :=
  let chars := response.data
  match pyFind '\x7b' chars, pyRfind '\x7d' chars with
  | some s, some e =>
    let jsonStr := String.mk ((chars.drop s).take (e + 1 - s))
    match decode jsonStr with
    | none => createFallbackResponse originalCv
    | some j =>
      match j.optimized_content, j.improvements with
      | some oc, some imps =>
        { optimized_content := oc, improvements := imps,
          summary := j.summary.getD "", fallback_used := false }
      | _, _ => structuredResponse response originalCv
  | _, _ => structuredResponse response originalCv

/-- `CVOptimizer._generate_optimizations`.  `attempts` is the stream of
transport outcomes the LLM endpoint would return to successive requests
(`.error` models `requests.post` raising/timeout/non-200); the source
performs exactly one `requests.post` with no retry loop, so only the head is
ever consulted — an exhausted stream likewise models transport failure.  An
exception from the single call is caught by the `except` clause and degrades
to the rule-based fallback. -/
def generateOptimizations (decode : String → Option DecodedJson)
    (attempts : List (Except Unit String)) (cv : String) : OptResult :=
  match attempts with
  | [] => fallbackOptimization cv
  | .error _ :: _ => fallbackOptimization cv
  | .ok resp :: _ => parseOptimizationResponse decode resp cv

/-- One entry of `get_optimization_suggestions` (fields the claims touch). -/
structure Suggestion where
  category : String
  priority : String
  suggestion : String
deriving DecidableEq

/-- The Python exceptions relevant to `get_optimization_suggestions`. -/
inductive PyError | typeError
deriving DecidableEq

/-- Python `['summary', 'skills'] - set(...)`: the `-` operator is not
defined between `list` and `set` (`list.__sub__` does not exist and
`set.__rsub__` rejects a list), so this expression unconditionally raises
`TypeError: unsupported operand type(s) for -: 'list' and 'set'`. -/
def listMinusSet (_l : List String) (_s : List String) :
    Except PyError (List String) :=
  .error .typeError

/-- The `try` body of `CVOptimizer.get_optimization_suggestions`
(`job_description` is accepted but never read by the source body).  The
`missing_sections` line is reached unconditionally after the first two
suggestion blocks. -/
def getOptimizationSuggestionsBody (cv : String) :
    Except PyError (List Suggestion) := do
  let analysis := analyzeCurrentCv cv
  let s1 : List Suggestion :=
    if analysis.quantification_rate < 80 then
      [{ category := "quantification", priority := "high",
         suggestion := "Add numbers to " ++
           toString (analysis.total_bullets - analysis.quantified_bullets) ++
           " more bullet points" }]
    else []
  let s2 : List Suggestion :=
    if analysis.power_verb_count < 5 then
      [{ category := "action_verbs", priority := "high",
         suggestion := "Replace weak verbs with powerful action verbs" }]
    else []
  let missing ← listMinusSet ["summary", "skills"] (detectSections cv)
  let s3 : List Suggestion :=
    if !missing.isEmpty then
      [{ category := "structure", priority := "medium",
         suggestion := "Add missing sections" }]
    else []
  pure (s1 ++ s2 ++ s3)

/-- `CVOptimizer.get_optimization_suggestions`: the `try`/`except` wrapper
returns `[]` on any exception. -/
def getOptimizationSuggestions (cv _jd : String) : List Suggestion :=
  match getOptimizationSuggestionsBody cv with
  | .ok s => s
  | .error _ => []

/-! ## Report derivations (`report.py`) -/

/-- The letter grade of `_create_executive_summary`. -/
def gradeOf (enhancedScore : ℤ) : String :=
  if 90 ≤ enhancedScore then "A+"
  else if 80 ≤ enhancedScore then "A"
  else if 70 ≤ enhancedScore then "B"
  else if 60 ≤ enhancedScore then "C"
  else "D"

/-- `meets_benchmark` in `_create_benchmark_comparison`. -/
def meetsBenchmark (score threshold : ℤ) : Bool := threshold ≤ score

/-- `points_needed` in `_create_benchmark_comparison`. -/
def pointsNeeded (score threshold : ℤ) : ℤ := max 0 (threshold - score)

example : pyWords "  a  bc \n d ".data = [['a'], ['b', 'c'], ['d']] := by decide
example : splitLines "a\n\nb".data = [['a'], [], ['b']] := by decide
example : joinLines (splitLines "a\n\nb".data) = "a\n\nb".data := by decide
example : replaceAllL "ab".data "x".data "zababy".data = "zxxy".data := by decide
example : isInfixL "bc".data "abcd".data = true := by decide
example : isInfixL "".data "x".data = true := by decide
example : countDigitRuns "a12b3 $45x".data = 3 := by decide
example : isBulletLine "   • hi".data = true := by decide
example : isBulletLine "x - hi".data = false := by decide
example : pyInt (75 / 2 : ℚ) = 37 := by norm_num [pyInt, Int.tdiv]

/-! ## Helper lemmas -/

/-- A filtered list is never longer than the original. -/
theorem quantified_le_total (cv : String) :
    (analyzeQuantification cv).quantified_bullets ≤
      (analyzeQuantification cv).total_bullets :=
  List.length_filter_le _ _

/-! ## Claim theorems -/

/-- C1: for every document text, `_analyze_quantification` returns
`quantification_rate = quantified_bullet_count / max(total_bullets, 1) × 100`
exactly (over exact rational arithmetic); a document with zero bullet lines
has rate exactly 0, and a document with at least one bullet has rate exactly
`100 × quantified/total`, with no rounding. -/
theorem quantification_rate_formula (cv : String) :
    (analyzeQuantification cv).quantification_rate =
      ((analyzeQuantification cv).quantified_bullets : ℚ) /
        ((max (analyzeQuantification cv).total_bullets 1 : ℕ) : ℚ) * 100 ∧
    ((analyzeQuantification cv).total_bullets = 0 →
      (analyzeQuantification cv).quantification_rate = 0) ∧
    (1 ≤ (analyzeQuantification cv).total_bullets →
      (analyzeQuantification cv).quantification_rate =
        100 * ((analyzeQuantification cv).quantified_bullets : ℚ) /
          ((analyzeQuantification cv).total_bullets : ℚ)) := by
  refine ⟨rfl, ?_, ?_⟩
  · intro h
    have hq : (analyzeQuantification cv).quantified_bullets = 0 :=
      Nat.le_zero.mp (h ▸ quantified_le_total cv)
    show ((analyzeQuantification cv).quantified_bullets : ℚ) /
        ((max (analyzeQuantification cv).total_bullets 1 : ℕ) : ℚ) * 100 = 0
    rw [hq]
    norm_num
  · intro h
    show ((analyzeQuantification cv).quantified_bullets : ℚ) /
        ((max (analyzeQuantification cv).total_bullets 1 : ℕ) : ℚ) * 100 = _
    rw [Nat.max_eq_left h]
    ring

/-- Witness for C1 at concrete documents: two bullets with one quantified,
and the empty document. -/
theorem quantification_rate_formula_witness :
    1 ≤ (analyzeQuantification "- 5 cats\n- dogs").total_bullets ∧
    (analyzeQuantification "- 5 cats\n- dogs").quantification_rate =
      100 * ((analyzeQuantification "- 5 cats\n- dogs").quantified_bullets : ℚ) /
        ((analyzeQuantification "- 5 cats\n- dogs").total_bullets : ℚ) ∧
    (analyzeQuantification "").total_bullets = 0 ∧
    (analyzeQuantification "").quantification_rate = 0 :=
  ⟨by decide, (quantification_rate_formula _).2.2 (by decide), by decide,
    (quantification_rate_formula _).2.1 (by decide)⟩

/-- C2: `_validate_improvements` computes `improvement_score` as the sum of
exactly the four fixed bonuses (+30 strict quantification-rate increase, +25
strict power-verb increase, +20 word-count change in [−50, 200], +25 bullet
count not decreased), `validation_passed` holds iff the score is ≥ 50, and
on identical texts the score is exactly 45 with validation failed. -/
theorem validate_improvements_spec :
    (∀ original optimized : String,
      (validateImprovements original optimized).improvements.quantification_improvement =
        (analyzeCurrentCv optimized).quantification_rate -
          (analyzeCurrentCv original).quantification_rate ∧
      (validateImprovements original optimized).improvements.power_verb_improvement =
        ((analyzeCurrentCv optimized).power_verb_count : ℤ) -
          ((analyzeCurrentCv original).power_verb_count : ℤ) ∧
      (validateImprovements original optimized).improvements.length_change =
        ((analyzeCurrentCv optimized).word_count : ℤ) -
          ((analyzeCurrentCv original).word_count : ℤ) ∧
      (validateImprovements original optimized).improvements.bullet_count_change =
        ((analyzeCurrentCv optimized).total_bullets : ℤ) -
          ((analyzeCurrentCv original).total_bullets : ℤ) ∧
      (validateImprovements original optimized).improvement_score =
        (if 0 < (validateImprovements original optimized).improvements.quantification_improvement
          then 30 else 0) +
        (if 0 < (validateImprovements original optimized).improvements.power_verb_improvement
          then 25 else 0) +
        (if -50 ≤ (validateImprovements original optimized).improvements.length_change ∧
            (validateImprovements original optimized).improvements.length_change ≤ 200
          then 20 else 0) +
        (if 0 ≤ (validateImprovements original optimized).improvements.bullet_count_change
          then 25 else 0) ∧
      (validateImprovements original optimized).validation_passed =
        decide (50 ≤ (validateImprovements original optimized).improvement_score)) ∧
    ∀ t : String,
      (validateImprovements t t).improvement_score = 45 ∧
      (validateImprovements t t).validation_passed = false := by
  refine ⟨fun original optimized => ⟨rfl, rfl, rfl, rfl, rfl, rfl⟩, fun t => ⟨?_, ?_⟩⟩
  · simp [validateImprovements]
  · simp [validateImprovements]

/-- C6: the rule-based fallback on
`"- worked on migrating servers\n- helped with deployment"` rewrites the
first line with "developed" and the second with "contributed to", recording
two distinct improvement entries, each with `impact_score` 6. -/
theorem fallback_scenario_concrete :
    (fallbackOptimization "- worked on migrating servers\n- helped with deployment").optimized_content =
      "- developed migrating servers\n- contributed to deployment" ∧
    splitLines (fallbackOptimization
        "- worked on migrating servers\n- helped with deployment").optimized_content.data =
      ["- developed migrating servers".data, "- contributed to deployment".data] ∧
    isInfixL "developed".data "- developed migrating servers".data = true ∧
    isInfixL "contributed to".data "- contributed to deployment".data = true ∧
    ((fallbackOptimization "- worked on migrating servers\n- helped with deployment").improvements.map
      Improvement.impact_score) = [6, 6] ∧
    (fallbackOptimization "- worked on migrating servers\n- helped with deployment").improvements[0]? ≠
      (fallbackOptimization "- worked on migrating servers\n- helped with deployment").improvements[1]? := by
  exact ⟨by decide, by decide, by decide, by decide, by decide, by decide⟩

/-- C7: the `action_verb_hierarchy` standard score follows the tiers
`≥5 → 90, ≥3 → 75, else → 50` on the tier-1 verb count and is therefore
monotonically non-decreasing in that count. -/
theorem action_verb_monotone :
    (∀ cv : String, (checkActionVerbCompliance cv).1 =
      if 5 ≤ (analyzeVerbHierarchy cv).tier1_count then 90
      else if 3 ≤ (analyzeVerbHierarchy cv).tier1_count then 75 else 50) ∧
    ∀ cv₁ cv₂ : String,
      (analyzeVerbHierarchy cv₁).tier1_count ≤ (analyzeVerbHierarchy cv₂).tier1_count →
      (checkActionVerbCompliance cv₁).1 ≤ (checkActionVerbCompliance cv₂).1 := by
  constructor
  · intro cv
    simp only [checkActionVerbCompliance, analyzeVerbHierarchy]
    split_ifs <;> rfl
  · intro cv₁ cv₂ h
    simp only [analyzeVerbHierarchy] at h
    simp only [checkActionVerbCompliance]
    split_ifs <;> (try norm_num) <;> omega

/-- Witness for C7 at concrete documents with tier-1 counts 0 and 1. -/
theorem action_verb_monotone_witness :
    (analyzeVerbHierarchy "").tier1_count ≤
      (analyzeVerbHierarchy "x architected y").tier1_count ∧
    (checkActionVerbCompliance "").1 ≤
      (checkActionVerbCompliance "x architected y").1 :=
  ⟨by decide, action_verb_monotone.2 _ _ (by decide)⟩

/-- C9: `get_optimization_suggestions` always returns the empty list: the
unconditional `['summary', 'skills'] - set(...)` subtraction raises a
`TypeError` that the surrounding handler catches, so no suggestion ever
reaches the caller and the operation itself never raises. -/
theorem suggestions_always_empty (cv jd : String) :
    getOptimizationSuggestionsBody cv = Except.error PyError.typeError ∧
    getOptimizationSuggestions cv jd = [] :=
  ⟨rfl, rfl⟩

/-- C4 counterexample: `_check_quantification_compliance` *truncates* the
rate with `int(...)` rather than rounding it to the nearest integer.  On a
document with 8 bullet lines of which 3 contain a digit the rate is exactly
37.5; rounding to an integer gives 38, while the code returns 37. -/
theorem quantification_standard_round_counterexample :
    (bulletLines "- a 1\n- b 2\n- c 3\n- d\n- e\n- f\n- g\n- h".data).length = 8 ∧
    (bulletLines "- a 1\n- b 2\n- c 3\n- d\n- e\n- f\n- g\n- h".data).countP hasDigit = 3 ∧
    ((3 : ℚ) / 8 * 100 < 60) ∧
    (checkQuantificationCompliance "- a 1\n- b 2\n- c 3\n- d\n- e\n- f\n- g\n- h").1 = 37 ∧
    round ((3 : ℚ) / 8 * 100) = 38 ∧
    (checkQuantificationCompliance "- a 1\n- b 2\n- c 3\n- d\n- e\n- f\n- g\n- h").1 ≠
      ((round ((3 : ℚ) / 8 * 100) : ℤ) : ℚ) := by
  have hb : (bulletLines "- a 1\n- b 2\n- c 3\n- d\n- e\n- f\n- g\n- h".data).length = 8 := by
    decide
  have hq : (bulletLines "- a 1\n- b 2\n- c 3\n- d\n- e\n- f\n- g\n- h".data).countP hasDigit = 3 := by
    decide
  have hne : (bulletLines "- a 1\n- b 2\n- c 3\n- d\n- e\n- f\n- g\n- h".data).isEmpty = false := by
    decide
  have hscore :
      (checkQuantificationCompliance "- a 1\n- b 2\n- c 3\n- d\n- e\n- f\n- g\n- h").1 = 37 := by
    simp only [checkQuantificationCompliance, hne, hb, hq, Bool.false_eq_true, if_false]
    rw [if_neg (by norm_num), if_neg (by norm_num)]
    push_cast
    norm_num [pyInt, Int.tdiv]
  have hround : round ((3 : ℚ) / 8 * 100) = 38 := by
    rw [round_eq]
    norm_num
  refine ⟨hb, hq, by norm_num, hscore, hround, ?_⟩
  rw [hscore, hround]
  norm_num

/-- C4 (amended): the `quantification_standard` score is 95 when the rate is
≥ 80 (inclusive at the boundary), 80 when 60 ≤ rate < 80, the rate
*truncated* to an integer (the floor, as the rate is nonnegative — not the
nearest integer) when the rate is < 60, and exactly `(0, ["No bullet points
found"])` when the document has no bullet line. -/
theorem quantification_standard_tiers (cv : String) :
    (bulletLines cv.data = [] →
      checkQuantificationCompliance cv = (0, ["No bullet points found"])) ∧
    (bulletLines cv.data ≠ [] →
      (80 ≤ ((bulletLines cv.data).countP hasDigit : ℚ) /
          ((bulletLines cv.data).length : ℚ) * 100 →
        (checkQuantificationCompliance cv).1 = 95) ∧
      (60 ≤ ((bulletLines cv.data).countP hasDigit : ℚ) /
          ((bulletLines cv.data).length : ℚ) * 100 →
        ((bulletLines cv.data).countP hasDigit : ℚ) /
          ((bulletLines cv.data).length : ℚ) * 100 < 80 →
        (checkQuantificationCompliance cv).1 = 80) ∧
      (((bulletLines cv.data).countP hasDigit : ℚ) /
          ((bulletLines cv.data).length : ℚ) * 100 < 60 →
        (checkQuantificationCompliance cv).1 =
          ((⌊((bulletLines cv.data).countP hasDigit : ℚ) /
              ((bulletLines cv.data).length : ℚ) * 100⌋ : ℤ) : ℚ))) := by
  constructor
  · intro h
    simp [checkQuantificationCompliance, h]
  · intro h
    have hne : (bulletLines cv.data).isEmpty = false := by
      simpa [List.isEmpty_iff] using h
    have hrate : (0 : ℚ) ≤ ((bulletLines cv.data).countP hasDigit : ℚ) /
        ((bulletLines cv.data).length : ℚ) * 100 := by positivity
    refine ⟨fun h80 => ?_, fun h60 h80 => ?_, fun h60 => ?_⟩
    · simp only [checkQuantificationCompliance, hne, Bool.false_eq_true, if_false]
      rw [if_pos h80]
    · simp only [checkQuantificationCompliance, hne, Bool.false_eq_true, if_false]
      rw [if_neg (by linarith), if_pos h60]
    · simp only [checkQuantificationCompliance, hne, Bool.false_eq_true, if_false]
      rw [if_neg (by linarith), if_neg (by linarith), ← pyInt_eq_floor hrate]

/-- Witness for C4 (amended) on the spec's round-trip scenario: 10 bullets,
8 quantified, rate exactly 80, top tier (boundary inclusive), and on a
zero-bullet document. -/
theorem quantification_standard_tiers_witness :
    bulletLines "- a1\n- b2\n- c3\n- d4\n- e5\n- f6\n- g7\n- h8\n- i\n- j".data ≠ [] ∧
    80 ≤ ((bulletLines "- a1\n- b2\n- c3\n- d4\n- e5\n- f6\n- g7\n- h8\n- i\n- j".data).countP hasDigit : ℚ) /
        ((bulletLines "- a1\n- b2\n- c3\n- d4\n- e5\n- f6\n- g7\n- h8\n- i\n- j".data).length : ℚ) * 100 ∧
    (checkQuantificationCompliance "- a1\n- b2\n- c3\n- d4\n- e5\n- f6\n- g7\n- h8\n- i\n- j").1 = 95 ∧
    bulletLines "no bullets here".data = [] ∧
    checkQuantificationCompliance "no bullets here" = (0, ["No bullet points found"]) := by
  have h80 : 80 ≤ ((bulletLines "- a1\n- b2\n- c3\n- d4\n- e5\n- f6\n- g7\n- h8\n- i\n- j".data).countP hasDigit : ℚ) /
      ((bulletLines "- a1\n- b2\n- c3\n- d4\n- e5\n- f6\n- g7\n- h8\n- i\n- j".data).length : ℚ) * 100 := by
    rw [show (bulletLines "- a1\n- b2\n- c3\n- d4\n- e5\n- f6\n- g7\n- h8\n- i\n- j".data).countP hasDigit = 8 from by decide,
      show (bulletLines "- a1\n- b2\n- c3\n- d4\n- e5\n- f6\n- g7\n- h8\n- i\n- j".data).length = 10 from by decide]
    norm_num
  exact ⟨by decide, h80,
    ((quantification_standard_tiers _).2 (by decide)).1 h80,
    by decide,
    (quantification_standard_tiers _).1 (by decide)⟩

/-- C8 counterexample: the `role_alignment` *standard* score is produced by
`_check_alignment_compliance`, which returns a fixed 70 for every document —
not the claimed neutral 50 — even when no target role is given (the neutral
50 lives in the separate `_analyze_role_alignment` analysis). -/
theorem role_alignment_standard_counterexample :
    (checkAlignmentCompliance "- managed a team").1 = 70 ∧
    ((70 : ℚ) ≠ 50) ∧
    (analyzeRoleAlignment "- managed a team" "").score = 50 := by
  refine ⟨rfl, by norm_num, by simp [analyzeRoleAlignment]⟩

/-- C8 (amended): the `role_alignment` compliance standard scores a fixed 70
for every document; the separate role-alignment *analysis* returns the
neutral 50 when no target role is given and otherwise the fraction of the
relevant keyword set found in the text multiplied by 100. -/
theorem role_alignment_spec :
    (∀ cv : String, (checkAlignmentCompliance cv).1 = 70) ∧
    (∀ cv : String, (analyzeRoleAlignment cv "").score = 50) ∧
    ∀ cv role : String, role ≠ "" →
      (analyzeRoleAlignment cv role).score =
        ((analyzeRoleAlignment cv role).matched_count : ℚ) /
          ((max (analyzeRoleAlignment cv role).relevant_count 1 : ℕ) : ℚ) * 100 := by
  refine ⟨fun cv => rfl, fun cv => by simp [analyzeRoleAlignment], fun cv role h => ?_⟩
  rw [analyzeRoleAlignment, if_neg h]

/-- Witness for C8 (amended) at a concrete document and target role. -/
theorem role_alignment_spec_witness :
    ("devops" : String) ≠ "" ∧
    (analyzeRoleAlignment "docker and python" "devops").score =
      ((analyzeRoleAlignment "docker and python" "devops").matched_count : ℚ) /
        ((max (analyzeRoleAlignment "docker and python" "devops").relevant_count 1 : ℕ) : ℚ) * 100 :=
  ⟨by decide, role_alignment_spec.2.2 _ _ (by decide)⟩

/-! ## Non-emptiness of the rule-based fallback output (helpers for C5) -/

/-- `splitOnPred` never returns the empty list of pieces. -/
theorem splitOnPred_ne_nil (p : Char → Bool) (s : List Char) :
    splitOnPred p s ≠ [] := by
  cases s with
  | nil => simp [splitOnPred]
  | cons c rest =>
    simp only [splitOnPred]
    split
    · simp
    · split <;> simp

/-- `replaceAllAux` maps non-empty subjects to non-empty results when the
replacement is non-empty. -/
theorem replaceAllAux_ne_nil (pat rep : List Char) (fuel : Nat) (s : List Char)
    (hs : s ≠ []) (hrep : rep ≠ []) : replaceAllAux pat rep fuel s ≠ [] := by
  cases fuel with
  | zero => simpa [replaceAllAux] using hs
  | succ n =>
    cases s with
    | nil => exact absurd rfl hs
    | cons c rest =>
      rw [replaceAllAux]
      split
      · simp [hrep]
      · simp

/-- `str.replace` maps non-empty subjects to non-empty results when the
replacement is non-empty. -/
theorem replaceAllL_ne_nil (pat rep s : List Char) (hs : s ≠ []) (hrep : rep ≠ []) :
    replaceAllL pat rep s ≠ [] := by
  rw [replaceAllL]
  split
  · exact hs
  · exact replaceAllAux_ne_nil pat rep s.length s hs hrep

/-- The line produced by one `fallbackStep` is either the accumulated line
or a full replacement of the lowercased original line. -/
theorem fallbackStep_fst (line : List Char) (acc : List Char × List Improvement)
    (p : String × String) :
    (fallbackStep line acc p).1 = acc.1 ∨
      (fallbackStep line acc p).1 = replaceAllL p.1.data p.2.data (lowerL line) := by
  rw [fallbackStep]
  split
  · right; rfl
  · left; rfl

/-- The line produced by the whole replacement fold is either the initial
accumulator line or a full replacement of the lowercased original line. -/
theorem foldl_fallbackStep_fst (line : List Char) :
    ∀ (ps : List (String × String)) (acc : List Char × List Improvement),
      (ps.foldl (fallbackStep line) acc).1 = acc.1 ∨
        ∃ p ∈ ps, (ps.foldl (fallbackStep line) acc).1 =
          replaceAllL p.1.data p.2.data (lowerL line)
  | [], _ => Or.inl rfl
  | q :: qs, acc => by
    rw [List.foldl_cons]
    rcases foldl_fallbackStep_fst line qs (fallbackStep line acc q) with h | ⟨p, hp, h⟩
    · rcases fallbackStep_fst line acc q with h' | h'
      · exact Or.inl (h.trans h')
      · exact Or.inr ⟨q, by simp, h.trans h'⟩
    · exact Or.inr ⟨p, by simp [hp], h⟩

/-- Lowercasing preserves non-emptiness. -/
theorem lowerL_ne_nil {l : List Char} (h : l ≠ []) : lowerL l ≠ [] := by
  simpa [lowerL] using h

/-- The fallback never empties a non-empty line: each replacement string of
`verb_replacements` is non-empty. -/
theorem fallbackLine_fst_ne_nil {line : List Char} (h : line ≠ []) :
    (fallbackLine line).1 ≠ [] := by
  rcases foldl_fallbackStep_fst line verbReplacements (line, []) with h1 | ⟨p, hp, h2⟩
  · rw [fallbackLine, h1]
    exact h
  · rw [fallbackLine, h2]
    refine replaceAllL_ne_nil _ _ _ (lowerL_ne_nil h) ?_
    have hall : ∀ p ∈ verbReplacements, p.2.data ≠ ([] : List Char) := by decide
    exact hall p hp

/-- Joining the per-line images of a non-empty text under a
non-emptiness-preserving line transformation yields a non-empty text. -/
theorem joinLines_map_ne_nil (f : List Char → List Char)
    (hf : ∀ l, l ≠ [] → f l ≠ []) (s : List Char) (hs : s ≠ []) :
    joinLines ((splitLines s).map f) ≠ [] := by
  obtain ⟨c, rest, rfl⟩ := List.exists_cons_of_ne_nil hs
  obtain ⟨l0, ls, hls⟩ :=
    List.exists_cons_of_ne_nil (splitOnPred_ne_nil (fun c => c = '\n') rest)
  by_cases hcn : c = '\n'
  · have h1 : splitLines (c :: rest) = [] :: l0 :: ls := by
      simp only [splitLines, splitOnPred, hcn]
      rw [show splitOnPred (fun c => decide (c = '\n')) rest = l0 :: ls from hls]
      simp
    rw [h1]
    simp [joinLines]
  · have h1 : splitLines (c :: rest) = (c :: l0) :: ls := by
      simp only [splitLines, splitOnPred, hcn]
      rw [show splitOnPred (fun c => decide (c = '\n')) rest = l0 :: ls from hls]
      simp
    rw [h1]
    cases ls with
    | nil => simpa [joinLines] using hf (c :: l0) (by simp)
    | cons y t => simp [joinLines]

/-- The rule-based fallback returns non-empty optimized content for
non-empty input text. -/
theorem fallbackOptimization_content_ne_empty {cv : String} (h : cv ≠ "") :
    (fallbackOptimization cv).optimized_content ≠ "" := by
  have hdata : cv.data ≠ [] := fun hd => h (String.ext (by simpa using hd))
  intro hc
  have hj : joinLines (((splitLines cv.data).map fallbackLine).map (·.1)) = [] := by
    simpa [fallbackOptimization] using congrArg String.data hc
  rw [List.map_map] at hj
  exact joinLines_map_ne_nil (fun l => (fallbackLine l).1)
    (fun l hl => fallbackLine_fst_ne_nil hl) cv.data hdata hj

/-- C5 counterexample: an exception raised while *parsing* the LLM response
does not produce the rule-based fallback.  `json.loads("\x7bbad\x7d")`
raises `JSONDecodeError` (modelled by the decoder returning `none`), which
`_parse_optimization_response` catches itself, returning the
original-preserving structured fallback — a different result from the
rule-based `_fallback_optimization`, which would have rewritten
"worked on" to "developed". -/
theorem parse_error_fallback_counterexample :
    parseOptimizationResponse (fun _ => none) "\x7bbad\x7d" "- worked on it" =
      createFallbackResponse "- worked on it" ∧
    (parseOptimizationResponse (fun _ => none) "\x7bbad\x7d" "- worked on it").fallback_used =
      true ∧
    createFallbackResponse "- worked on it" ≠ fallbackOptimization "- worked on it" ∧
    (fallbackOptimization "- worked on it").optimized_content = "- developed it" :=
  ⟨by decide, by decide, by decide, by decide⟩

/-- C5 (amended): any exception raised by the LLM *call* is caught by
`_generate_optimizations` and degrades to the rule-based fallback, whose
result has `fallback_used = true` and non-empty `optimized_content` for
non-empty input; an exception raised while *parsing* (a JSON decode
failure) is caught inside `_parse_optimization_response` and yields the
structured fallback preserving the original text, likewise with
`fallback_used = true` and the (non-empty) original content.  In both cases
no error propagates, and the network call is never retried: the engine's
result depends only on the first transport outcome. -/
theorem llm_failure_fallback_spec
    (decode : String → Option DecodedJson) (cv : String)
    (rest rest' : List (Except Unit String)) :
    (generateOptimizations decode (Except.error () :: rest) cv = fallbackOptimization cv ∧
      (fallbackOptimization cv).fallback_used = true ∧
      (cv ≠ "" → (fallbackOptimization cv).optimized_content ≠ "")) ∧
    (∀ (response : String) (s e : Nat),
      pyFind '\x7b' response.data = some s →
      pyRfind '\x7d' response.data = some e →
      decode (String.mk ((response.data.drop s).take (e + 1 - s))) = none →
      parseOptimizationResponse decode response cv = createFallbackResponse cv ∧
      (createFallbackResponse cv).fallback_used = true ∧
      (createFallbackResponse cv).optimized_content = cv) ∧
    ∀ a : Except Unit String,
      generateOptimizations decode (a :: rest) cv =
        generateOptimizations decode (a :: rest') cv := by
  refine ⟨⟨rfl, rfl, fun h => fallbackOptimization_content_ne_empty h⟩, ?_, ?_⟩
  · intro response s e hs he hd
    refine ⟨?_, rfl, rfl⟩
    simp only [parseOptimizationResponse, hs, he, hd]
  · intro a
    cases a <;> rfl

/-- Witness for C5 (amended): a failing transport outcome and a response
whose embedded JSON fails to decode, on a concrete non-empty document. -/
theorem llm_failure_fallback_spec_witness :
    generateOptimizations (fun _ => none) [Except.error ()] "- worked on it" =
      fallbackOptimization "- worked on it" ∧
    ("- worked on it" : String) ≠ "" ∧
    (fallbackOptimization "- worked on it").optimized_content ≠ "" ∧
    pyFind '\x7b' "x\x7bbad\x7dy".data = some 1 ∧
    pyRfind '\x7d' "x\x7bbad\x7dy".data = some 5 ∧
    parseOptimizationResponse (fun _ => none) "x\x7bbad\x7dy" "- worked on it" =
      createFallbackResponse "- worked on it" :=
  ⟨(llm_failure_fallback_spec (fun _ => none) "- worked on it" [] []).1.1,
    by decide,
    (llm_failure_fallback_spec (fun _ => none) "- worked on it" [] []).1.2.2 (by decide),
    by decide, by decide,
    ((llm_failure_fallback_spec (fun _ => none) "- worked on it" [] []).2.1
      "x\x7bbad\x7dy" 1 5 (by decide) (by decide) rfl).1⟩

/-- Two valid enumerations of the same job-keyword set are permutations of
one another. -/
theorem validJdEnum_perm {jd : String} {e₁ e₂ : List String}
    (h₁ : validJdEnum jd e₁) (h₂ : validJdEnum jd e₂) : e₁.Perm e₂ :=
  (List.perm_ext_iff_of_nodup h₁.1 h₂.1).mpr fun a => (h₁.2 a).trans (h₂.2 a).symm

/-- `_analyze_keywords` is invariant under the enumeration order of the
job-keyword set: only a count and a length of the enumeration are read. -/
theorem analyzeKeywords_enum_invariant (cv jd : String) {e₁ e₂ : List String}
    (hp : e₁.Perm e₂) : analyzeKeywords cv jd e₁ = analyzeKeywords cv jd e₂ := by
  simp only [analyzeKeywords]
  rw [hp.countP_eq, hp.length_eq]

/-- C3: scoring is deterministic.  Every scoring stage is embedded as a pure
function of the text (no randomness, no LLM call); the only run-dependent
ingredient in CPython is the enumeration order of `list(set(...))` in
`_extract_jd_keywords` (string-hash dependent), and both `overall_score` and
`enhanced_score` are invariant under it: two runs on identical document
text, job description and target role produce identical scores. -/
theorem scores_deterministic (cv jd role : String) (e₁ e₂ : List String)
    (h₁ : validJdEnum jd e₁) (h₂ : validJdEnum jd e₂) :
    overallScoreRun cv jd e₁ = overallScoreRun cv jd e₂ ∧
    enhancedScoreRun cv jd role e₁ = enhancedScoreRun cv jd role e₂ := by
  have hk : analyzeKeywords cv jd e₁ = analyzeKeywords cv jd e₂ :=
    analyzeKeywords_enum_invariant cv jd (validJdEnum_perm h₁ h₂)
  constructor
  · simp only [overallScoreRun]
    rw [hk]
  · simp only [enhancedScoreRun]
    rw [hk]

/-- Witness for C3: the canonical enumeration of the keyword set for an
empty job description is a valid enumeration, and the two runs agree on a
concrete document. -/
theorem scores_deterministic_witness :
    validJdEnum "" (jdKeywordList "") ∧
    overallScoreRun "- built 3 apis" "" (jdKeywordList "") =
      overallScoreRun "- built 3 apis" "" (jdKeywordList "") ∧
    enhancedScoreRun "- built 3 apis" "" "devops" (jdKeywordList "") =
      enhancedScoreRun "- built 3 apis" "" "devops" (jdKeywordList "") := by
  have hv : validJdEnum "" (jdKeywordList "") := ⟨by decide, fun _ => Iff.rfl⟩
  exact ⟨hv, scores_deterministic "- built 3 apis" "" "devops" _ _ hv hv⟩

/-- C10: whenever the ten sub-scores read by `_calculate_enhanced_score`
are each in [0, 100], the enhanced score is at most 52 (the base portion's
internal weights sum to 0.60 and are multiplied by 0.6, the enhanced
portion's weights sum to 0.40 and are multiplied by 0.4), so the letter
grades A/A+ (thresholds 80/90) and the 85 and 80 benchmarks can never be
reached. -/
theorem enhanced_score_upper_bound
    (pv ts fmt ats comp tier lead imp depth pres : ℚ)
    (hpv : 0 ≤ pv) (hpv2 : pv ≤ 100) (hts : 0 ≤ ts) (hts2 : ts ≤ 100)
    (hfmt : 0 ≤ fmt) (hfmt2 : fmt ≤ 100) (hats : 0 ≤ ats) (hats2 : ats ≤ 100)
    (hcomp : 0 ≤ comp) (hcomp2 : comp ≤ 100) (htier : 0 ≤ tier) (htier2 : tier ≤ 100)
    (hlead : 0 ≤ lead) (hlead2 : lead ≤ 100) (himp : 0 ≤ imp) (himp2 : imp ≤ 100)
    (hdepth : 0 ≤ depth) (hdepth2 : depth ≤ 100) (hpres : 0 ≤ pres) (hpres2 : pres ≤ 100) :
    calcEnhancedScoreComponents pv ts fmt ats comp tier lead imp depth pres ≤ 52 ∧
    gradeOf (calcEnhancedScoreComponents pv ts fmt ats comp tier lead imp depth pres) ≠ "A+" ∧
    gradeOf (calcEnhancedScoreComponents pv ts fmt ats comp tier lead imp depth pres) ≠ "A" ∧
    meetsBenchmark (calcEnhancedScoreComponents pv ts fmt ats comp tier lead imp depth pres) 85 =
      false ∧
    meetsBenchmark (calcEnhancedScoreComponents pv ts fmt ats comp tier lead imp depth pres) 80 =
      false := by
  have hq0 : (0 : ℚ) ≤ (pv * 0.15 + ts * 0.20 + fmt * 0.15 + ats * 0.10) * 0.6 +
      (comp * 0.15 + tier * 0.08 + lead * 0.05 + imp * 0.07 + depth * 0.03 +
        pres * 0.02) * 0.4 := by
    nlinarith
  have hq52 : (pv * 0.15 + ts * 0.20 + fmt * 0.15 + ats * 0.10) * 0.6 +
      (comp * 0.15 + tier * 0.08 + lead * 0.05 + imp * 0.07 + depth * 0.03 +
        pres * 0.02) * 0.4 ≤ 52 := by
    nlinarith
  have hcalc : calcEnhancedScoreComponents pv ts fmt ats comp tier lead imp depth pres =
      ⌊(pv * 0.15 + ts * 0.20 + fmt * 0.15 + ats * 0.10) * 0.6 +
        (comp * 0.15 + tier * 0.08 + lead * 0.05 + imp * 0.07 + depth * 0.03 +
          pres * 0.02) * 0.4⌋ := by
    rw [calcEnhancedScoreComponents]
    exact pyInt_eq_floor hq0
  have hfl : calcEnhancedScoreComponents pv ts fmt ats comp tier lead imp depth pres ≤ 52 := by
    rw [hcalc]
    exact Int.floor_le_iff.mpr (by push_cast; linarith)
  refine ⟨hfl, ?_, ?_, ?_, ?_⟩
  · rw [gradeOf]
    split_ifs <;> first | (exfalso; omega) | decide
  · rw [gradeOf]
    split_ifs <;> first | (exfalso; omega) | decide
  · simp only [meetsBenchmark, decide_eq_false_iff_not, not_le]
    omega
  · simp only [meetsBenchmark, decide_eq_false_iff_not, not_le]
    omega

/-- Witness for C10 with every component at its maximum 100: the enhanced
score is exactly its bound. -/
theorem enhanced_score_upper_bound_witness :
    ((0 : ℚ) ≤ 100 ∧ (100 : ℚ) ≤ 100) ∧
    calcEnhancedScoreComponents 100 100 100 100 100 100 100 100 100 100 ≤ 52 ∧
    gradeOf (calcEnhancedScoreComponents 100 100 100 100 100 100 100 100 100 100) ≠ "A+" ∧
    meetsBenchmark (calcEnhancedScoreComponents 100 100 100 100 100 100 100 100 100 100) 80 =
      false :=
  have h := enhanced_score_upper_bound 100 100 100 100 100 100 100 100 100 100
    (by norm_num) (by norm_num) (by norm_num) (by norm_num) (by norm_num)
    (by norm_num) (by norm_num) (by norm_num) (by norm_num) (by norm_num)
    (by norm_num) (by norm_num) (by norm_num) (by norm_num) (by norm_num)
    (by norm_num) (by norm_num) (by norm_num) (by norm_num) (by norm_num)
  ⟨⟨by norm_num, by norm_num⟩, h.1, h.2.1, h.2.2.2.2⟩
